import Mathlib

/-!
Verification of the spectroscopic axis unit-conversion module (units.py).

The numeric domain of the Python code (IEEE floats flowing through numpy
arrays) is modelled by the rationals: every constant appearing in the source
(unit multipliers, the speed of light 2.99792458e8) is an exact decimal, and
every conversion formula used by the claims is a rational function, so the
rational model evaluates the same expressions the source does, exactly.
Python exceptions are modelled by Except.error, and the Python functions that
fall off the end with a bare return (yielding None) are modelled by
Except.ok none.
-/

namespace Units

/-- Equality test on Except values, needed so concrete conversion outcomes
can be settled by decide. -/
instance {ε α : Type} [DecidableEq ε] [DecidableEq α] : DecidableEq (Except ε α) :=
  fun x y =>
    match x, y with
    | Except.error a, Except.error b =>
      if h : a = b then isTrue (congrArg Except.error h)
      else isFalse (fun hh => h (Except.error.inj hh))
    | Except.ok a, Except.ok b =>
      if h : a = b then isTrue (congrArg Except.ok h)
      else isFalse (fun hh => h (Except.ok.inj hh))
    | Except.error _, Except.ok _ => isFalse (fun hh => Except.noConfusion hh)
    | Except.ok _, Except.error _ => isFalse (fun hh => Except.noConfusion hh)

/-- Antisymmetry of the rational order, needed by the list min max
characterization lemmas. -/
instance : Std.Antisymm (fun x1 x2 : ℚ => x1 ≤ x2) where
  antisymm h1 h2 := le_antisymm h1 h2

/-- ASCII lowercase on a character, the effect of Python str.lower on the
ASCII unit and type names of the tables. -/
def lowerChar (c : Char) : Char :=
  match c with
  | 'A' => 'a' | 'B' => 'b' | 'C' => 'c' | 'D' => 'd' | 'E' => 'e' | 'F' => 'f'
  | 'G' => 'g' | 'H' => 'h' | 'I' => 'i' | 'J' => 'j' | 'K' => 'k' | 'L' => 'l'
  | 'M' => 'm' | 'N' => 'n' | 'O' => 'o' | 'P' => 'p' | 'Q' => 'q' | 'R' => 'r'
  | 'S' => 's' | 'T' => 't' | 'U' => 'u' | 'V' => 'v' | 'W' => 'w' | 'X' => 'x'
  | 'Y' => 'y' | 'Z' => 'z' | other => other

/-- ASCII lowercase of a string, modelling Python str.lower on the ASCII
names that populate the tables. -/
def asciiLower (s : String) : String := ⟨s.data.map lowerChar⟩

/-- Model of a lowercase-normalizing association-list lookup: the source class
CaseInsensitiveDict stores keys lowercased and lowercases the key on lookup,
so membership and lookup compare lowercased keys. -/
def ci_lookup (ps : List (String × ℚ)) (k : String) : Option ℚ :=
  (ps.find? (fun p => asciiLower p.1 == asciiLower k)).map (fun p => p.2)

/-- Model of the source table length_dict (also aliased wavelength_dict),
mapping a length unit name to its multiplier in meters. -/
def length_pairs : List (String × ℚ) :=
  [("meters", 1), ("m", 1),
   ("centimeters", 1/100), ("cm", 1/100),
   ("millimeters", 1/1000), ("mm", 1/1000),
   ("nanometers", 1/1000000000), ("nm", 1/1000000000),
   ("micrometers", 1/1000000), ("micron", 1/1000000),
   ("microns", 1/1000000), ("um", 1/1000000),
   ("kilometers", 1000), ("km", 1000),
   ("angstroms", 1/10000000000), ("A", 1/10000000000)]

/-- Model of the source table frequency_dict, mapping a frequency unit name
to its multiplier in Hz. -/
def frequency_pairs : List (String × ℚ) :=
  [("Hz", 1), ("kHz", 1000), ("MHz", 1000000),
   ("GHz", 1000000000), ("THz", 1000000000000)]

/-- Model of the source table velocity_dict, mapping a velocity unit name to
its multiplier in m/s. -/
def velocity_pairs : List (String × ℚ) :=
  [("meters/second", 1), ("m/s", 1),
   ("kilometers/s", 1000), ("km/s", 1000), ("kms", 1000),
   ("centimeters/s", 1/100), ("cm/s", 1/100), ("cms", 1/100)]

/-- The three value tables a quantity-type name can resolve to through the
case-insensitive conversion_dict of the source. -/
inductive TableId where
  | velocity : TableId
  | length : TableId
  | frequency : TableId
deriving DecidableEq, BEq

/-- Pairs list of each conversion table. -/
def tablePairs : TableId → List (String × ℚ)
  | TableId.velocity => velocity_pairs
  | TableId.length => length_pairs
  | TableId.frequency => frequency_pairs

/-- Model of conversion_dict: a case-insensitive map whose lowercased keys are
velocity, velo, length, frequency and freq, each naming one of the three
value tables. -/
def conversion_table (xtype : String) : Option TableId :=
  let l := asciiLower xtype
  if l == "velocity" || l == "velo" then some TableId.velocity
  else if l == "length" then some TableId.length
  else if l == "frequency" || l == "freq" then some TableId.frequency
  else none

/-- Model of unit_type_dict: a plain (case-sensitive) dict from unit name to
quantity-type name.  The source also maps the key None to None; the model
keeps string keys only, since every constructed axis carries a string unit. -/
def unit_type_pairs : List (String × String) :=
  [("Hz", "frequency"), ("kHz", "frequency"), ("MHz", "frequency"), ("GHz", "frequency"),
   ("HZ", "frequency"), ("KHZ", "frequency"), ("MHZ", "frequency"), ("GHZ", "frequency"),
   ("hz", "frequency"), ("khz", "frequency"), ("mhz", "frequency"), ("ghz", "frequency"),
   ("THz", "frequency"),
   ("meters/second", "velocity"), ("m/s", "velocity"), ("kilometers/s", "velocity"),
   ("km/s", "velocity"), ("kms", "velocity"), ("centimeters/s", "velocity"),
   ("cm/s", "velocity"), ("cms", "velocity"),
   ("meters", "length"), ("m", "length"),
   ("centimeters", "length"), ("cm", "length"),
   ("millimeters", "length"), ("mm", "length"),
   ("nanometers", "length"), ("nm", "length"),
   ("micrometers", "length"), ("micron", "length"), ("microns", "length"), ("um", "length"),
   ("kilometers", "length"), ("km", "length"),
   ("angstroms", "length"), ("A", "length")]

/-- Case-sensitive lookup in unit_type_pairs. -/
def unit_type_lookup (k : String) : Option String :=
  (unit_type_pairs.find? (fun p => p.1 == k)).map (fun p => p.2)

/-- Model of xtype_dict: a plain (case-sensitive) dict from axis-type tag to
quantity-type name. -/
def xtype_pairs : List (String × String) :=
  [("VLSR", "velocity"), ("VRAD", "velocity"), ("VELO", "velocity"),
   ("VOPT", "velocity"),
   ("VHEL", "velocity"),
   ("VGEO", "velocity"),
   ("VREST", "velocity"),
   ("velocity", "velocity"),
   ("Z", "redshift"),
   ("FREQ", "frequency"),
   ("frequency", "frequency"),
   ("WAV", "length"),
   ("WAVE", "length"),
   ("wavelength", "length")]

/-- Case-sensitive lookup in xtype_pairs. -/
def xtype_lookup (k : String) : Option String :=
  (xtype_pairs.find? (fun p => p.1 == k)).map (fun p => p.2)

/-- Model of frame_dict: a plain (case-sensitive) dict from axis-type tag to
frame name. -/
def frame_pairs : List (String × String) :=
  [("VLSR", "LSRK"), ("VRAD", "LSRK"), ("VELO", "LSRK"),
   ("VOPT", "LSRK"),
   ("LSRD", "LSRD"),
   ("VHEL", "heliocentric"),
   ("VGEO", "geocentric"),
   ("velocity", "LSRK"),
   ("VREST", "rest"),
   ("Z", "rest"),
   ("FREQ", "rest"),
   ("frequency", "rest"),
   ("WAV", "rest"),
   ("WAVE", "rest"),
   ("wavelength", "rest")]

/-- Case-sensitive lookup in frame_pairs. -/
def frame_lookup (k : String) : Option String :=
  (frame_pairs.find? (fun p => p.1 == k)).map (fun p => p.2)

/-- The speed of light in m/s, 2.99792458e8, exactly representable. -/
def speedoflight_ms : ℚ := 299792458

/-- Substring test over character lists: true when the needle occurs
contiguously inside the haystack (the Python `in` operator on strings). -/
def charsHold (needle : List Char) : List Char → Bool
  | [] => needle.isEmpty
  | c :: rest => needle.isPrefixOf (c :: rest) || charsHold needle rest

/-- Substring test on strings, modelling Python `needle in hay`. -/
def containsSub (hay needle : String) : Bool :=
  charsHold needle.toList hay.toList

/-- Python default-argument idiom `x if x is not None else d`: keep the
argument when given, fall back to the stored attribute otherwise. -/
def pyDefault {α : Type} (arg dflt : Option α) : Option α :=
  match arg with
  | none => dflt
  | some x => some x

/-- Rational stand-in for the Python float operation `x ** 0.5`, used only in
the relativistic branch of velocity_to_frequency: the exact square root when
one exists in the rationals, 0 otherwise.  No claim exercises this branch. -/
def ratSqrt (q : ℚ) : ℚ :=
  if q < 0 then 0
  else
    let n := q.num.toNat.sqrt
    let d := q.den.sqrt
    if n * n = q.num.toNat ∧ d * d = q.den then (n : ℚ) / (d : ℚ) else 0

/-- State of a SpectroscopicAxis: the coordinate samples together with the
metadata attributes the source stores on the array subclass.  The derived
dxarr attribute is not stored: in every modelled flow the source recomputes
it eagerly from the values right after each mutation, so it is modelled as
the function dxarr applied to the current values. -/
structure SpecAxis where
  values : List ℚ
  units : String
  frame : String
  xtype : String
  reffreq : Option ℚ
  reffreq_units : Option String
  velocity_convention : String
  redshift : Option ℚ
deriving DecidableEq

/-- Consecutive differences of the samples, modelling `self[1:]-self[:-1]`. -/
def dxarr (l : List ℚ) : List ℚ :=
  List.zipWith (fun a b => a - b) l.tail l

/-- Model of the velocity-convention derivation at the end of
SpectroscopicAxis.__new__ (source lines 191-203): a substring match on the
stored xtype.  The source's separate unknown-xtype and None-xtype branches
both yield the same default radio, so they collapse into the final else. -/
def convention_of_xtype (xt : String) : String :=
  if containsSub xt "RAD" then "radio"
  else if containsSub xt "OPT" then "optical"
  else if containsSub xt "REL" then "relativistic"
  else "radio"

/-- Model of SpectroscopicAxis.__new__.  Returns the pair (xtype, frame)
resolution first: a recognized xtype tag wins and also overrides the frame
argument via frame_dict (every xtype_dict key is a frame_dict key, so the
getD default is never taken); otherwise a recognized unit sets the xtype;
otherwise the raw xtype string is kept (with a printed warning); otherwise
the xtype is the string unknown. -/
def SpectroscopicAxis_new (xarr : List ℚ) (unit : String) (frame : String)
    (xtype : Option String) (reffreq : Option ℚ) (redshift : Option ℚ)
    (reffreq_units : Option String) : SpecAxis :=
  let resolved : String × String :=
    match xtype with
    | some s =>
      match xtype_lookup s with
      | some t => (t, (frame_lookup s).getD frame)
      | none =>
        match unit_type_lookup unit with
        | some t => (t, frame)
        | none => (s, frame)
    | none =>
      match unit_type_lookup unit with
      | some t => (t, frame)
      | none => ("unknown", frame)
  let ru : String :=
    match reffreq_units with
    | none => if (ci_lookup frequency_pairs unit).isSome then unit else "Hz"
    | some u => u
  { values := xarr, units := unit, frame := resolved.2, xtype := resolved.1,
    reffreq := reffreq, reffreq_units := some ru,
    velocity_convention := convention_of_xtype resolved.1,
    redshift := redshift }

/-- Model of the module-level function velocity_to_frequency.  Except.error
models a raised exception (ValueError from the explicit raises, KeyError from
a failing dict subscript); Except.ok none models the bare `return` taken when
the input unit is already a frequency unit (the Python function then yields
None, not the input). -/
def velocity_to_frequency (velocities : List ℚ) (input_units : String)
    (center_frequency : Option ℚ) (center_frequency_units : Option String)
    (frequency_units : String) (convention : String) :
    Except String (Option (List ℚ)) :=
  if (ci_lookup frequency_pairs input_units).isSome then
    Except.ok none
  else
    match center_frequency with
    | none => Except.error "ValueError: no central frequency"
    | some f0 =>
      if (ci_lookup frequency_pairs frequency_units).isNone then
        Except.error "ValueError: bad frequency units"
      else
        match ci_lookup velocity_pairs input_units with
        | none => Except.error "KeyError: input units not in velocity_dict"
        | some mIn =>
          -- velocity_ms = velocities / velocity_dict[m/s] * velocity_dict[input_units]
          let vms : ℚ → ℚ := fun v => v / 1 * mIn
          let core : Except String (ℚ → ℚ) :=
            if convention == "radio" then
              Except.ok (fun v => f0 * (1 - vms v / speedoflight_ms))
            else if convention == "optical" then
              Except.ok (fun v => f0 * (1 + vms v / speedoflight_ms) - 1)
            else if convention == "relativistic" then
              Except.ok (fun v =>
                f0 * ratSqrt (1 - (vms v / speedoflight_ms) ^ 2)
                  / (1 + vms v / speedoflight_ms))
            else Except.error "ValueError: convention not allowed"
          match core with
          | Except.error e => Except.error e
          | Except.ok f =>
            match ci_lookup frequency_pairs frequency_units with
            | none => Except.error "KeyError: frequency units"
            | some dOut =>
              match center_frequency_units with
              | none => Except.error "KeyError: center frequency units"
              | some cfu =>
                match ci_lookup frequency_pairs cfu with
                | none => Except.error "KeyError: center frequency units"
                | some dCF =>
                  Except.ok (some (velocities.map (fun v => f v / dOut * dCF)))

/-- Model of the module-level function frequency_to_velocity, with the same
Except conventions as velocity_to_frequency.  The relativistic branch keeps
the source's asymmetric exponentiation in the denominator. -/
def frequency_to_velocity (frequencies : List ℚ) (input_units : String)
    (center_frequency : Option ℚ) (center_frequency_units : Option String)
    (velocity_units : String) (convention : String) :
    Except String (Option (List ℚ)) :=
  if (ci_lookup velocity_pairs input_units).isSome then
    Except.ok none
  else
    match center_frequency with
    | none => Except.error "ValueError: no central frequency"
    | some f0 =>
      match center_frequency_units with
      | none => Except.error "ValueError: bad center frequency units"
      | some cfu =>
        match ci_lookup frequency_pairs cfu with
        | none => Except.error "ValueError: bad center frequency units"
        | some dCF =>
          match ci_lookup velocity_pairs velocity_units with
          | none => Except.error "ValueError: bad velocity units"
          | some mOut =>
            match ci_lookup frequency_pairs input_units with
            | none => Except.error "KeyError: input units not in frequency_dict"
            | some dIn =>
              let fhz : ℚ → ℚ := fun f => f / 1 * dIn
              let f0hz : ℚ := f0 / 1 * dCF
              let core : Except String (ℚ → ℚ) :=
                if convention == "radio" then
                  Except.ok (fun f => speedoflight_ms * (f0hz - fhz f) / f0hz)
                else if convention == "optical" then
                  Except.ok (fun f => speedoflight_ms * (fhz f - f0hz) / fhz f)
                else if convention == "relativistic" then
                  Except.ok (fun f =>
                    speedoflight_ms * (f0hz ^ 2 - fhz f ^ 2) / (f0hz ^ 2 + fhz f) ^ 2)
                else Except.error "ValueError: convention not allowed"
              match core with
              | Except.error e => Except.error e
              | Except.ok g =>
                Except.ok (some (frequencies.map (fun f => g f * 1 / mOut)))

/-- Outcome of SpectroscopicAxis.convert_to_unit: the mutated axis plus the
diagnostics the source prints.  couldNotConvert records the could-not-convert
message of the failed xtype-change branch, unitNotice the converting-units
message, frameNotice the frame-conversion-unsupported message, and
alreadyNotice the already-in-desired-units message. -/
structure ConvertResult where
  axis : SpecAxis
  couldNotConvert : Bool
  unitNotice : Bool
  frameNotice : Bool
  alreadyNotice : Bool
deriving DecidableEq

/-- Quantity-type-change step of convert_to_unit (source lines 407-425).
Returns the possibly rewritten axis together with the could-not-convert
diagnostic flag.  Assigning the None returned by a no-op converter into the
array (self[:] = None) raises in numpy and is modelled as an error. -/
def ctu_xtype_step (ax : SpecAxis) (unit : String) (tbl : TableId)
    (cf : Option ℚ) (cfu : Option String) : Except String (SpecAxis × Bool) :=
  if (ci_lookup (tablePairs tbl) unit).isNone then
    if (ci_lookup velocity_pairs unit).isSome && (tbl == TableId.frequency) then
      match frequency_to_velocity ax.values ax.units cf cfu unit
          ax.velocity_convention with
      | Except.error e => Except.error e
      | Except.ok none => Except.error "TypeError: cannot assign None into the array"
      | Except.ok (some vals) =>
        Except.ok ({ ax with values := vals, xtype := "Velocity", units := unit }, false)
    else if (ci_lookup frequency_pairs unit).isSome && (tbl == TableId.velocity) then
      match velocity_to_frequency ax.values ax.units cf cfu unit
          ax.velocity_convention with
      | Except.error e => Except.error e
      | Except.ok none => Except.error "TypeError: cannot assign None into the array"
      | Except.ok (some vals) =>
        Except.ok ({ ax with values := vals, xtype := "Frequency", units := unit }, false)
    else Except.ok (ax, true)
  else Except.ok (ax, false)

/-- Same-quantity-type rescale step of convert_to_unit (source lines
427-434): when the target unit still differs, multiply by the ratio of the
two multipliers looked up in the (possibly updated) xtype's table.  Returns
the axis and the converting-units notice flag. -/
def ctu_rescale_step (ax1 : SpecAxis) (unit : String) (change_units : Bool)
    (quiet : Bool) : Except String (SpecAxis × Bool) :=
  if (unit != ax1.units) && change_units then
    match conversion_table ax1.xtype with
    | none => Except.error "KeyError: xtype not in conversion_dict"
    | some tbl1 =>
      match ci_lookup (tablePairs tbl1) ax1.units,
          ci_lookup (tablePairs tbl1) unit with
      | some mOld, some mNew =>
        Except.ok ({ ax1 with units := unit,
                              values := ax1.values.map (fun v => v * (mOld / mNew)) },
          !quiet)
      | _, _ => Except.error "KeyError: unit not in conversion table"
  else Except.ok (ax1, false)

/-- Model of SpectroscopicAxis.convert_to_unit (source lines 382-444).
Except.error models a raised exception; in the source every raise in this
method fires before the corresponding in-place mutation, so an error leaves
the axis unchanged and the model simply aborts.  The frame field is only
read, never written. -/
def convert_to_unit (ax : SpecAxis) (unit : String) (frame : String)
    (quiet : Bool) (center_frequency : Option ℚ)
    (center_frequency_units : Option String) : Except String ConvertResult :=
  match conversion_table ax.xtype with
  | none => Except.error "KeyError: xtype not in conversion_dict"
  | some tbl =>
    let change_xtype : Bool := (ci_lookup (tablePairs tbl) unit).isNone
    let change_units : Bool := change_xtype || (unit != ax.units)
    let change_frame : Bool := frame != ax.frame
    let cf : Option ℚ := pyDefault center_frequency ax.reffreq
    let cfu : Option String := pyDefault center_frequency_units ax.reffreq_units
    match ctu_xtype_step ax unit tbl cf cfu with
    | Except.error e => Except.error e
    | Except.ok (ax1, couldNot) =>
      match ctu_rescale_step ax1 unit change_units quiet with
      | Except.error e => Except.error e
      | Except.ok (ax2, unitNotice) =>
        Except.ok { axis := ax2, couldNotConvert := couldNot,
                    unitNotice := unitNotice,
                    frameNotice := change_frame && !quiet,
                    alreadyNotice := !change_units && !change_xtype && !change_frame && !quiet }

/-- Model of SpectroscopicAxis.cdelt: the mean channel spacing when the axis
is linear to within the tolerance, nothing otherwise.  When the smallest
spacing is zero the float division of the source yields inf or nan, which is
never below the tolerance, so the result is nothing; an empty spacing array
raises in the source and is excluded by the theorems' hypotheses. -/
def cdelt (ax : SpecAxis) (tolerance : ℚ) : Option ℚ :=
  let dx := dxarr ax.values
  match dx.max?, dx.min? with
  | some dmax, some dmin =>
    if dmin = 0 then none
    else if |dmax - dmin| / |dmin| < tolerance then
      some (dx.sum / (dx.length : ℚ))
    else none
  | _, _ => none

/-- Per-member normalization step of SpectroscopicAxes.__new__.  When the
member's xtype differs, the source calls ax.change_xtype, a method that only
survives in a comment: the call raises AttributeError, which the bare except
swallows, leaving the axis unchanged, so the model has no xtype step.  When
the units or frame differ, convert_to_unit is attempted; the bare except
swallows any exception (the source builds a ValueError there and discards it
without raising), leaving the axis unchanged. -/
def processMember (units0 frame0 : String) (ax : SpecAxis) : SpecAxis :=
  if ax.units != units0 || ax.frame != frame0 then
    match convert_to_unit ax units0 frame0 false none none with
    | Except.ok r => r.axis
    | Except.error _ => ax
  else ax

/-- Outcome of SpectroscopicAxes.__new__: the merged axis together with the
list of per-member conversion errors the constructor surfaces to its caller.
The source surfaces none: its except branches construct error objects and
discard them, so the model always leaves this list empty. -/
structure AxesResult where
  axis : SpecAxis
  reportedErrors : List String
deriving DecidableEq

/-- Model of SpectroscopicAxes.__new__ (source lines 493-534).  An empty list
would raise an IndexError on the first subscript.  Units, xtype, frame,
redshift and convention come from the first member; each member is then
normalized by processMember (failures swallowed); the values are the ordered
concatenation; the reference frequency survives only if no member disagrees
with the first (the source sums the inequality flags over the mutated list,
which processMember models). -/
def SpectroscopicAxes_new (axislist : List SpecAxis) : Except String AxesResult :=
  match axislist with
  | [] => Except.error "IndexError: empty axis list"
  | ax0 :: _ =>
    let processed := axislist.map (processMember ax0.units ax0.frame)
    let p0 := processMember ax0.units ax0.frame ax0
    let vals := (processed.map SpecAxis.values).flatten
    let sameRef : Bool := processed.all (fun a => p0.reffreq == a.reffreq)
    Except.ok
      { axis :=
          { values := vals, units := ax0.units, frame := ax0.frame,
            xtype := ax0.xtype,
            reffreq := if sameRef then p0.reffreq else none,
            reffreq_units := if sameRef then p0.reffreq_units else none,
            velocity_convention := ax0.velocity_convention,
            redshift := ax0.redshift },
        reportedErrors := [] }

/-- Two successive convert_to_unit calls on an axis, returning the final
values: the round-trip experiment of the spec. -/
def convertTwice (ax : SpecAxis) (u1 u2 fr : String) : Except String (List ℚ) :=
  match convert_to_unit ax u1 fr false none none with
  | Except.error e => Except.error e
  | Except.ok r1 =>
    match convert_to_unit r1.axis u2 fr false none none with
    | Except.error e => Except.error e
    | Except.ok r2 => Except.ok r2.axis.values

/-- Checks whether converting the axis to u1 and back to its own unit moves
the first sample by more than tol in relative terms. -/
def roundTripRelErrExceeds (ax : SpecAxis) (u1 : String) (tol : ℚ) : Bool :=
  match convertTwice ax u1 ax.units ax.frame with
  | Except.ok vals2 =>
    match ax.values, vals2 with
    | v0 :: _, v1 :: _ => tol * |v0| < |v1 - v0|
    | _, _ => false
  | Except.error _ => false

/-- Mapping forward and back with pointwise inverse functions is the
identity on lists. -/
theorem listMapRoundTrip (l : List ℚ) (f g : ℚ → ℚ) (h : ∀ x, g (f x) = x) :
    (l.map f).map g = l := by
  rw [List.map_map]
  have hid : (g ∘ f) = id := funext h
  rw [hid, List.map_id]

/-- Every multiplier stored in a conversion table is nonzero. -/
theorem tablePairs_lookup_ne_zero (tbl : TableId) (u : String) (m : ℚ)
    (h : ci_lookup (tablePairs tbl) u = some m) : m ≠ 0 := by
  unfold ci_lookup at h
  rcases Option.map_eq_some'.mp h with ⟨p, hp, hpm⟩
  have hmem := List.mem_of_find?_eq_some hp
  subst hpm
  cases tbl <;> simp only [tablePairs] at hmem <;> fin_cases hmem <;> norm_num

/-- The velocity_convention of a freshly constructed axis is the substring
rule applied to the xtype the constructor stored. -/
theorem new_velocity_convention (xarr : List ℚ) (unit fr : String)
    (xt : Option String) (rf rs : Option ℚ) (rfu : Option String) :
    (SpectroscopicAxis_new xarr unit fr xt rf rs rfu).velocity_convention
      = convention_of_xtype (SpectroscopicAxis_new xarr unit fr xt rf rs rfu).xtype :=
  rfl

/-- A recognized xtype tag is stored normalized: the constructor keeps the
quantity-type name from xtype_dict, not the tag itself. -/
theorem new_xtype_of_recognized (xarr : List ℚ) (unit fr s t : String)
    (rf rs : Option ℚ) (rfu : Option String) (h : xtype_lookup s = some t) :
    (SpectroscopicAxis_new xarr unit fr (some s) rf rs rfu).xtype = t := by
  unfold SpectroscopicAxis_new
  simp only [h]

/-- C2 counterexample: constructing an axis with xtype VOPT yields
velocity_convention radio, not optical as the claim states, because the
constructor first normalizes VOPT to the quantity-type name velocity and the
substring match then runs on that normalized name. -/
theorem C2_counterexample :
    (SpectroscopicAxis_new [0] "km/s" "rest" (some "VOPT") none none
        none).velocity_convention = "radio"
    ∧ (SpectroscopicAxis_new [0] "km/s" "rest" (some "VOPT") none none
        none).velocity_convention ≠ "optical" := by
  decide

/-- C2 (amended): the substring match runs on the stored xtype after
normalization, so every recognized xtype tag (any key of xtype_dict,
including VOPT) is first mapped to its quantity-type name, none of which
contains RAD, OPT or REL, and the derived velocity_convention is radio. -/
theorem C2_recognized_xtype_yields_radio (xarr : List ℚ) (unit fr s t : String)
    (rf rs : Option ℚ) (rfu : Option String) (h : xtype_lookup s = some t) :
    (SpectroscopicAxis_new xarr unit fr (some s) rf rs rfu).velocity_convention
      = "radio" := by
  have ht : t = "velocity" ∨ t = "redshift" ∨ t = "frequency" ∨ t = "length" := by
    unfold xtype_lookup at h
    rcases Option.map_eq_some'.mp h with ⟨p, hp, hpt⟩
    have hmem := List.mem_of_find?_eq_some hp
    subst hpt
    fin_cases hmem <;> simp
  rw [new_velocity_convention, new_xtype_of_recognized xarr unit fr s t rf rs rfu h]
  rcases ht with h1 | h1 | h1 | h1 <;> subst h1 <;> decide

/-- C2 witness: the recognized tag FREQ yields the radio convention. -/
theorem C2_witness :
    (SpectroscopicAxis_new [1] "GHz" "rest" (some "FREQ") none none
        none).velocity_convention = "radio" :=
  C2_recognized_xtype_yields_radio [1] "GHz" "rest" "FREQ" "frequency" none none none
    (by decide)

/-- C3 counterexample: velocity_to_frequency on an input already in frequency
units yields no value at all (the Python function prints a notice and returns
None), not the input values unchanged as the claim states. -/
theorem C3_counterexample :
    velocity_to_frequency [5] "Hz" (some 1) (some "Hz") "Hz" "radio" = Except.ok none
    ∧ velocity_to_frequency [5] "Hz" (some 1) (some "Hz") "Hz" "radio"
      ≠ Except.ok (some [5]) := by
  decide

/-- C3 (amended): when the input unit is already a frequency unit,
velocity_to_frequency skips the conversion and returns no value (Python
None) after printing a notice, rather than the input values; symmetrically
frequency_to_velocity with an input unit in the velocity table. -/
theorem C3_already_in_domain_returns_none :
    (∀ (vals : List ℚ) (u : String) (cf : Option ℚ) (cfu : Option String)
      (fu conv : String), (ci_lookup frequency_pairs u).isSome →
        velocity_to_frequency vals u cf cfu fu conv = Except.ok none)
    ∧ (∀ (vals : List ℚ) (u : String) (cf : Option ℚ) (cfu : Option String)
      (vu conv : String), (ci_lookup velocity_pairs u).isSome →
        frequency_to_velocity vals u cf cfu vu conv = Except.ok none) := by
  constructor
  · intro vals u cf cfu fu conv h
    unfold velocity_to_frequency
    simp [h]
  · intro vals u cf cfu vu conv h
    unfold frequency_to_velocity
    simp [h]

/-- C3 witness: a GHz input is already in the frequency domain. -/
theorem C3_witness :
    velocity_to_frequency [1, 2] "GHz" none none "Hz" "radio" = Except.ok none :=
  C3_already_in_domain_returns_none.1 [1, 2] "GHz" none none "Hz" "radio" (by decide)

/-- C5: under the radio convention with reference frequency 115271.202 MHz,
velocity 0 km/s maps to exactly the reference frequency (expressed in MHz)
and velocity 299792.458 km/s, the speed of light, maps to frequency 0. -/
theorem C5_radio_boundary :
    velocity_to_frequency [0] "km/s" (some (115271.202 : ℚ)) (some "MHz") "MHz"
        "radio" = Except.ok (some [(115271.202 : ℚ)])
    ∧ velocity_to_frequency [(299792.458 : ℚ)] "km/s" (some (115271.202 : ℚ))
        (some "MHz") "MHz" "radio" = Except.ok (some [0]) := by
  constructor <;>
    · simp only [velocity_to_frequency, speedoflight_ms,
        show ci_lookup frequency_pairs "km/s" = none from rfl,
        show ci_lookup frequency_pairs "MHz" = some 1000000 from rfl,
        show ci_lookup velocity_pairs "km/s" = some 1000 from rfl,
        Option.isSome_none, Option.isNone_none, Bool.false_eq_true, if_false,
        Option.isNone_some, List.map_cons, List.map_nil, reduceIte]
      norm_num

/-- C10: when the reference-frequency unit argument is omitted, the
constructor defaults it to the axis unit when that unit is a frequency unit
and to Hz otherwise. -/
theorem C10_reffreq_units_default (xarr : List ℚ) (unit fr : String)
    (xt : Option String) (rf rs : Option ℚ) :
    (SpectroscopicAxis_new xarr unit fr xt rf rs none).reffreq_units
      = some (if (ci_lookup frequency_pairs unit).isSome then unit else "Hz") :=
  rfl

/-- C10 witness: a velocity-unit axis constructed without a reference
frequency unit falls back to Hz. -/
theorem C10_witness :
    (SpectroscopicAxis_new [1] "km/s" "rest" none none none none).reffreq_units
      = some (if (ci_lookup frequency_pairs "km/s").isSome then "km/s" else "Hz") :=
  C10_reffreq_units_default [1] "km/s" "rest" none none none

/-- Value of the optical-convention round trip km/s to GHz and back on the
velocity 1000 km/s with reference frequency 100 GHz: the optical
velocity-to-frequency formula of the source, f0 (1 + v/c) - 1, is not the
inverse of its frequency-to-velocity formula c (f - f0)/f, so the round trip
lands far from 1000. -/
theorem optical_roundtrip_value :
    convertTwice ⟨[1000], "km/s", "rest", "velocity", some 100, some "GHz", "optical", none⟩
      "GHz" "km/s" "rest" = Except.ok [(-14974068018420441 : ℚ)/7444863335500] := by
  simp only [convertTwice, convert_to_unit, ctu_xtype_step, ctu_rescale_step,
    velocity_to_frequency, frequency_to_velocity, tablePairs, pyDefault, speedoflight_ms,
    show conversion_table "velocity" = some TableId.velocity from rfl,
    show conversion_table "Frequency" = some TableId.frequency from rfl,
    show ci_lookup velocity_pairs "GHz" = none from rfl,
    show ci_lookup frequency_pairs "GHz" = some 1000000000 from rfl,
    show ci_lookup velocity_pairs "km/s" = some 1000 from rfl,
    show ci_lookup frequency_pairs "km/s" = none from rfl,
    show (("optical" : String) == "radio") = false from rfl,
    show (("optical" : String) == "optical") = true from rfl,
    show (TableId.velocity == TableId.frequency) = false from rfl,
    show (TableId.frequency == TableId.frequency) = true from rfl,
    show (TableId.velocity == TableId.velocity) = true from rfl,
    show (TableId.frequency == TableId.velocity) = false from rfl,
    show (("GHz" : String) != "km/s") = true from rfl,
    show (("km/s" : String) != "GHz") = true from rfl,
    show (("GHz" : String) != "GHz") = false from rfl,
    show (("km/s" : String) != "km/s") = false from rfl,
    show (("rest" : String) != "rest") = false from rfl,
    Option.isSome_none, Option.isNone_none, Option.isSome_some, Option.isNone_some,
    Bool.false_and, Bool.true_and, Bool.and_false, Bool.and_true,
    Bool.false_or, Bool.or_false, Bool.not_true, Bool.not_false,
    List.map_cons, List.map_nil, if_true, if_false, Bool.false_eq_true, reduceIte]
  norm_num

/-- C1 counterexample: under the optical convention the round trip km/s to
GHz and back moves the value 1000 km/s by far more than 1e-9 relative, and
convert_to_unit cannot reach wavelength units at all (a frequency axis sent
to um raises a KeyError), so the claimed round trip fails both for the
optical convention and for the wavelength chains. -/
theorem C1_counterexample :
    roundTripRelErrExceeds
      ⟨[1000], "km/s", "rest", "velocity", some 100, some "GHz", "optical", none⟩
      "GHz" (1/1000000000) = true
    ∧ convert_to_unit
      ⟨[1], "GHz", "rest", "frequency", some 100, some "GHz", "radio", none⟩
      "um" "rest" false none none
      = Except.error "KeyError: unit not in conversion table" := by
  constructor
  · simp only [roundTripRelErrExceeds, optical_roundtrip_value]
    rw [decide_eq_true_eq]
    rw [abs_of_nonneg (by norm_num : (0 : ℚ) ≤ 1000),
      abs_of_neg (by norm_num : ((-14974068018420441 : ℚ)/7444863335500 - 1000) < 0)]
    norm_num
  · rfl

/-- Round trip within one quantity type: convert to another unit of the same
table and back; the two rescales cancel exactly. -/
theorem ctu_roundtrip_same_type (vals : List ℚ) (A B fr xt vc : String)
    (rf : Option ℚ) (rfu : Option String) (rs : Option ℚ) (tbl : TableId)
    (mA mB : ℚ) (ht : conversion_table xt = some tbl)
    (hA : ci_lookup (tablePairs tbl) A = some mA)
    (hB : ci_lookup (tablePairs tbl) B = some mB) :
    convertTwice ⟨vals, A, fr, xt, rf, rfu, vc, rs⟩ B A fr = Except.ok vals := by
  have hmA : mA ≠ 0 := tablePairs_lookup_ne_zero tbl A mA hA
  have hmB : mB ≠ 0 := tablePairs_lookup_ne_zero tbl B mB hB
  by_cases hBA : B = A
  · subst hBA
    simp only [convertTwice, convert_to_unit, ctu_xtype_step, ctu_rescale_step,
      pyDefault, ht, hA, Option.isNone_some, bne_self_eq_false, Bool.false_and,
      if_true, if_false, Bool.false_eq_true, reduceIte]
  · have hne1 : (B != A) = true := bne_iff_ne.mpr hBA
    have hne2 : (A != B) = true := bne_iff_ne.mpr (fun hh => hBA hh.symm)
    simp only [convertTwice, convert_to_unit, ctu_xtype_step, ctu_rescale_step,
      pyDefault, ht, hA, hB, hne1, hne2, Option.isNone_some, bne_self_eq_false,
      Bool.false_and, Bool.true_and, Bool.and_false, Bool.and_true,
      Bool.false_or, Bool.or_false, Bool.or_true, Bool.true_or,
      if_true, if_false, Bool.false_eq_true, reduceIte, Except.ok.injEq]
    apply listMapRoundTrip
    intro x
    field_simp

/-- Round trip velocity to frequency and back under the radio convention:
the radio formulas are exact mutual inverses, so the original values return
exactly. -/
theorem ctu_roundtrip_vel_freq_radio (vals : List ℚ) (V B U0 fr : String)
    (f0 mV dB dU0 : ℚ) (rs : Option ℚ)
    (hV : ci_lookup velocity_pairs V = some mV)
    (hVf : ci_lookup frequency_pairs V = none)
    (hB : ci_lookup frequency_pairs B = some dB)
    (hBv : ci_lookup velocity_pairs B = none)
    (hU0 : ci_lookup frequency_pairs U0 = some dU0)
    (hf0 : f0 ≠ 0) :
    convertTwice ⟨vals, V, fr, "velocity", some f0, some U0, "radio", rs⟩ B V fr
      = Except.ok vals := by
  have hmV : mV ≠ 0 := tablePairs_lookup_ne_zero TableId.velocity V mV hV
  have hdB : dB ≠ 0 := tablePairs_lookup_ne_zero TableId.frequency B dB hB
  have hdU0 : dU0 ≠ 0 := tablePairs_lookup_ne_zero TableId.frequency U0 dU0 hU0
  simp only [convertTwice, convert_to_unit, ctu_xtype_step, ctu_rescale_step,
    velocity_to_frequency, frequency_to_velocity, tablePairs, pyDefault,
    hV, hVf, hB, hBv, hU0,
    show conversion_table "velocity" = some TableId.velocity from rfl,
    show conversion_table "Frequency" = some TableId.frequency from rfl,
    show (("radio" : String) == "radio") = true from rfl,
    show (TableId.velocity == TableId.frequency) = false from rfl,
    show (TableId.frequency == TableId.frequency) = true from rfl,
    show (TableId.velocity == TableId.velocity) = true from rfl,
    show (TableId.frequency == TableId.velocity) = false from rfl,
    Option.isSome_none, Option.isNone_none, Option.isSome_some, Option.isNone_some,
    Bool.false_and, Bool.true_and, Bool.and_false, Bool.and_true,
    Bool.false_or, Bool.or_false, Bool.not_true, Bool.not_false,
    bne_self_eq_false, if_true, if_false, Bool.false_eq_true, reduceIte,
    Except.ok.injEq]
  apply listMapRoundTrip
  intro x
  have hc : speedoflight_ms ≠ 0 := by norm_num [speedoflight_ms]
  field_simp
  ring

/-- Round trip frequency to velocity and back under the radio convention:
exact mutual inverses, original values return exactly. -/
theorem ctu_roundtrip_freq_vel_radio (vals : List ℚ) (F V U0 fr : String)
    (f0 dF mV dU0 : ℚ) (rs : Option ℚ)
    (hF : ci_lookup frequency_pairs F = some dF)
    (hFv : ci_lookup velocity_pairs F = none)
    (hV : ci_lookup velocity_pairs V = some mV)
    (hVf : ci_lookup frequency_pairs V = none)
    (hU0 : ci_lookup frequency_pairs U0 = some dU0)
    (hf0 : f0 ≠ 0) :
    convertTwice ⟨vals, F, fr, "frequency", some f0, some U0, "radio", rs⟩ V F fr
      = Except.ok vals := by
  have hmV : mV ≠ 0 := tablePairs_lookup_ne_zero TableId.velocity V mV hV
  have hdF : dF ≠ 0 := tablePairs_lookup_ne_zero TableId.frequency F dF hF
  have hdU0 : dU0 ≠ 0 := tablePairs_lookup_ne_zero TableId.frequency U0 dU0 hU0
  simp only [convertTwice, convert_to_unit, ctu_xtype_step, ctu_rescale_step,
    velocity_to_frequency, frequency_to_velocity, tablePairs, pyDefault,
    hF, hFv, hV, hVf, hU0,
    show conversion_table "frequency" = some TableId.frequency from rfl,
    show conversion_table "Velocity" = some TableId.velocity from rfl,
    show (("radio" : String) == "radio") = true from rfl,
    show (TableId.velocity == TableId.frequency) = false from rfl,
    show (TableId.frequency == TableId.frequency) = true from rfl,
    show (TableId.velocity == TableId.velocity) = true from rfl,
    show (TableId.frequency == TableId.velocity) = false from rfl,
    Option.isSome_none, Option.isNone_none, Option.isSome_some, Option.isNone_some,
    Bool.false_and, Bool.true_and, Bool.and_false, Bool.and_true,
    Bool.false_or, Bool.or_false, Bool.not_true, Bool.not_false,
    bne_self_eq_false, if_true, if_false, Bool.false_eq_true, reduceIte,
    Except.ok.injEq]
  apply listMapRoundTrip
  intro x
  have hc : speedoflight_ms ≠ 0 := by norm_num [speedoflight_ms]
  field_simp
  ring

/-- C1 (amended): the round trip through convert_to_unit restores the
original values exactly (hence within 1e-9 relative) for any two units of
the same quantity type, and across the frequency and velocity domains under
the radio convention with a nonzero reference frequency in a recognized
frequency unit; under the optical convention the round trip fails and
wavelength targets are not supported at all. -/
theorem C1_roundtrip_amended :
    (∀ (vals : List ℚ) (A B fr xt vc : String) (rf : Option ℚ)
      (rfu : Option String) (rs : Option ℚ) (tbl : TableId) (mA mB : ℚ),
      conversion_table xt = some tbl →
      ci_lookup (tablePairs tbl) A = some mA →
      ci_lookup (tablePairs tbl) B = some mB →
      convertTwice ⟨vals, A, fr, xt, rf, rfu, vc, rs⟩ B A fr = Except.ok vals)
    ∧ (∀ (vals : List ℚ) (V B U0 fr : String) (f0 mV dB dU0 : ℚ) (rs : Option ℚ),
      ci_lookup velocity_pairs V = some mV →
      ci_lookup frequency_pairs V = none →
      ci_lookup frequency_pairs B = some dB →
      ci_lookup velocity_pairs B = none →
      ci_lookup frequency_pairs U0 = some dU0 →
      f0 ≠ 0 →
      convertTwice ⟨vals, V, fr, "velocity", some f0, some U0, "radio", rs⟩ B V fr
        = Except.ok vals)
    ∧ (∀ (vals : List ℚ) (F V U0 fr : String) (f0 dF mV dU0 : ℚ) (rs : Option ℚ),
      ci_lookup frequency_pairs F = some dF →
      ci_lookup velocity_pairs F = none →
      ci_lookup velocity_pairs V = some mV →
      ci_lookup frequency_pairs V = none →
      ci_lookup frequency_pairs U0 = some dU0 →
      f0 ≠ 0 →
      convertTwice ⟨vals, F, fr, "frequency", some f0, some U0, "radio", rs⟩ V F fr
        = Except.ok vals) :=
  ⟨fun vals A B fr xt vc rf rfu rs tbl mA mB ht hA hB =>
      ctu_roundtrip_same_type vals A B fr xt vc rf rfu rs tbl mA mB ht hA hB,
    fun vals V B U0 fr f0 mV dB dU0 rs hV hVf hB hBv hU0 hf0 =>
      ctu_roundtrip_vel_freq_radio vals V B U0 fr f0 mV dB dU0 rs hV hVf hB hBv hU0 hf0,
    fun vals F V U0 fr f0 dF mV dU0 rs hF hFv hV hVf hU0 hf0 =>
      ctu_roundtrip_freq_vel_radio vals F V U0 fr f0 dF mV dU0 rs hF hFv hV hVf hU0 hf0⟩

/-- C1 witness: a radio-convention velocity axis in km/s with reference
frequency 100 MHz goes to GHz and returns to exactly its original values. -/
theorem C1_witness :
    convertTwice ⟨[7, 8], "km/s", "rest", "velocity", some 100, some "MHz", "radio", none⟩
      "GHz" "km/s" "rest" = Except.ok [7, 8] :=
  C1_roundtrip_amended.2.1 [7, 8] "km/s" "GHz" "MHz" "rest" 100 1000 1000000000 1000000
    none rfl rfl rfl rfl rfl (by norm_num)

/-- A successful frequency_to_velocity call maps the input elementwise, so
the output length equals the input length. -/
theorem frequency_to_velocity_length (l : List ℚ) (iu : String) (cf : Option ℚ)
    (cfu : Option String) (vu conv : String) (vals : List ℚ)
    (h : frequency_to_velocity l iu cf cfu vu conv = Except.ok (some vals)) :
    vals.length = l.length := by
  unfold frequency_to_velocity at h
  repeat' split at h
  all_goals first
    | (simp_all; done)
    | (simp only [Except.ok.injEq, Option.some.injEq] at h
       rw [← h, List.length_map])

/-- A successful velocity_to_frequency call maps the input elementwise, so
the output length equals the input length. -/
theorem velocity_to_frequency_length (l : List ℚ) (iu : String) (cf : Option ℚ)
    (cfu : Option String) (fu conv : String) (vals : List ℚ)
    (h : velocity_to_frequency l iu cf cfu fu conv = Except.ok (some vals)) :
    vals.length = l.length := by
  unfold velocity_to_frequency at h
  repeat' split at h
  all_goals first
    | (simp_all; done)
    | (simp only [Except.ok.injEq, Option.some.injEq] at h
       rw [← h, List.length_map])

/-- The xtype-change step never touches frame, sample count, reference
frequency or its unit. -/
theorem ctu_xtype_step_meta (ax : SpecAxis) (u : String) (tbl : TableId)
    (cf : Option ℚ) (cfu : Option String) (ax1 : SpecAxis) (b : Bool)
    (h : ctu_xtype_step ax u tbl cf cfu = Except.ok (ax1, b)) :
    ax1.frame = ax.frame ∧ ax1.values.length = ax.values.length
      ∧ ax1.reffreq = ax.reffreq ∧ ax1.reffreq_units = ax.reffreq_units := by
  unfold ctu_xtype_step at h
  repeat' split at h
  all_goals first
    | (simp_all; done)
    | (simp only [Except.ok.injEq, Prod.mk.injEq] at h
       obtain ⟨hax, hb⟩ := h
       subst hax
       exact ⟨rfl, frequency_to_velocity_length _ _ _ _ _ _ _ (by assumption),
         rfl, rfl⟩)
    | (simp only [Except.ok.injEq, Prod.mk.injEq] at h
       obtain ⟨hax, hb⟩ := h
       subst hax
       exact ⟨rfl, velocity_to_frequency_length _ _ _ _ _ _ _ (by assumption),
         rfl, rfl⟩)

/-- The rescale step never touches frame, sample count, reference frequency
or its unit. -/
theorem ctu_rescale_step_meta (ax1 : SpecAxis) (u : String) (cu q : Bool)
    (ax2 : SpecAxis) (b : Bool)
    (h : ctu_rescale_step ax1 u cu q = Except.ok (ax2, b)) :
    ax2.frame = ax1.frame ∧ ax2.values.length = ax1.values.length
      ∧ ax2.reffreq = ax1.reffreq ∧ ax2.reffreq_units = ax1.reffreq_units := by
  unfold ctu_rescale_step at h
  repeat' split at h
  all_goals first
    | (simp_all; done)
    | (simp only [Except.ok.injEq, Prod.mk.injEq] at h
       obtain ⟨hax, hb⟩ := h
       subst hax
       exact ⟨rfl, List.length_map _ _, rfl, rfl⟩)

/-- A convert_to_unit call that returns leaves frame, sample count,
reference frequency and its unit unchanged. -/
theorem convert_to_unit_meta (ax : SpecAxis) (u fr : String) (q : Bool)
    (cf : Option ℚ) (cfu : Option String) (r : ConvertResult)
    (h : convert_to_unit ax u fr q cf cfu = Except.ok r) :
    r.axis.frame = ax.frame ∧ r.axis.values.length = ax.values.length
      ∧ r.axis.reffreq = ax.reffreq ∧ r.axis.reffreq_units = ax.reffreq_units := by
  unfold convert_to_unit at h
  dsimp only at h
  repeat' split at h
  all_goals first
    | (simp_all; done)
    | (simp only [Except.ok.injEq] at h
       subst h
       have m1 := ctu_xtype_step_meta _ _ _ _ _ _ _ (by assumption)
       have m2 := ctu_rescale_step_meta _ _ _ _ _ _ (by assumption)
       exact ⟨m2.1.trans m1.1, m2.2.1.trans m1.2.1, m2.2.2.1.trans m1.2.2.1,
         m2.2.2.2.trans m1.2.2.2⟩)

/-- C7: every convert_to_unit call that returns leaves the frame field
exactly as it was, whatever target frame was requested: the frame change is
only reported, never executed. -/
theorem C7_frame_unchanged (ax : SpecAxis) (u fr : String) (q : Bool)
    (cf : Option ℚ) (cfu : Option String) (r : ConvertResult)
    (h : convert_to_unit ax u fr q cf cfu = Except.ok r) :
    r.axis.frame = ax.frame :=
  (convert_to_unit_meta ax u fr q cf cfu r h).1

/-- C7 witness: requesting the LSRK frame on a rest-frame axis leaves the
frame at rest (with the frame notice raised). -/
theorem C7_witness :
    (⟨⟨[1, 2], "MHz", "rest", "frequency", none, some "MHz", "radio", none⟩,
        false, false, true, false⟩ : ConvertResult).axis.frame
      = SpecAxis.frame ⟨[1, 2], "MHz", "rest", "frequency", none, some "MHz", "radio", none⟩ :=
  C7_frame_unchanged ⟨[1, 2], "MHz", "rest", "frequency", none, some "MHz", "radio", none⟩
    "MHz" "LSRK" false none none
    ⟨⟨[1, 2], "MHz", "rest", "frequency", none, some "MHz", "radio", none⟩,
      false, false, true, false⟩ rfl

/-- C6: converting to the unit, xtype table and frame the axis already has
is a no-op: the axis comes back unchanged, no conversion diagnostics fire,
and the already-in-desired-units notice is emitted. -/
theorem C6_noop_notice (ax : SpecAxis) (tbl : TableId) (m : ℚ)
    (ht : conversion_table ax.xtype = some tbl)
    (hu : ci_lookup (tablePairs tbl) ax.units = some m) :
    convert_to_unit ax ax.units ax.frame false none none
      = Except.ok ⟨ax, false, false, false, true⟩ := by
  simp only [convert_to_unit, ctu_xtype_step, ctu_rescale_step, pyDefault, ht, hu,
    Option.isNone_some, bne_self_eq_false, Bool.false_and, Bool.false_or,
    Bool.not_false, Bool.and_true, Bool.true_and, Bool.and_self, if_true, if_false,
    Bool.false_eq_true, reduceIte]

/-- C6 witness: a GHz frequency axis converted to GHz in its own frame is
returned unchanged with the notice flag set. -/
theorem C6_witness :
    convert_to_unit ⟨[5], "GHz", "rest", "frequency", none, some "GHz", "radio", none⟩
      "GHz" "rest" false none none
      = Except.ok ⟨⟨[5], "GHz", "rest", "frequency", none, some "GHz", "radio", none⟩,
          false, false, false, true⟩ :=
  C6_noop_notice ⟨[5], "GHz", "rest", "frequency", none, some "GHz", "radio", none⟩
    TableId.frequency 1000000000 rfl rfl

/-- C8: cdelt yields the mean of the spacing array exactly when the
spacing spread relative to the smallest spacing is below the tolerance and
nothing otherwise; concretely, the linear axis 0,1,2,3,4 yields spacing 1
and the nonlinear axis 0,1,3,7 yields nothing. -/
theorem C8_channel_spacing :
    (∀ (ax : SpecAxis) (tol dmax dmin : ℚ),
      (dxarr ax.values).max? = some dmax →
      (dxarr ax.values).min? = some dmin →
      dmin ≠ 0 →
      cdelt ax tol
        = if (dmax - dmin) / |dmin| < tol then
            some ((dxarr ax.values).sum / ((dxarr ax.values).length : ℚ))
          else none)
    ∧ cdelt (SpectroscopicAxis_new [0, 1, 2, 3, 4] "GHz" "rest" none none none none)
        (1/100000000) = some 1
    ∧ cdelt (SpectroscopicAxis_new [0, 1, 3, 7] "GHz" "rest" none none none none)
        (1/100000000) = none := by
  refine ⟨?_, ?_, ?_⟩
  · intro ax tol dmax dmin hmax hmin hne
    obtain ⟨hmaxmem, hmaxub⟩ :=
      (List.max?_eq_some_iff (fun x => le_refl x) max_choice
        (fun _ _ _ => max_le_iff)).mp hmax
    obtain ⟨hminmem, hminlb⟩ :=
      (List.min?_eq_some_iff (fun x => le_refl x) min_choice
        (fun _ _ _ => le_min_iff)).mp hmin
    have hle : dmin ≤ dmax := hminlb dmax hmaxmem
    have habs : |dmax - dmin| = dmax - dmin := abs_of_nonneg (sub_nonneg.mpr hle)
    simp only [cdelt, hmax, hmin, habs]
    rw [if_neg hne]
  · have hdx : dxarr (SpecAxis.values
        (SpectroscopicAxis_new [0, 1, 2, 3, 4] "GHz" "rest" none none none none))
        = [1, 1, 1, 1] := by
      norm_num [dxarr, SpectroscopicAxis_new, List.zipWith]
    simp only [cdelt, hdx,
      show ([1, 1, 1, 1] : List ℚ).max? = some 1 from rfl,
      show ([1, 1, 1, 1] : List ℚ).min? = some 1 from rfl]
    norm_num
  · have hdx : dxarr (SpecAxis.values
        (SpectroscopicAxis_new [0, 1, 3, 7] "GHz" "rest" none none none none))
        = [1, 2, 4] := by
      norm_num [dxarr, SpectroscopicAxis_new, List.zipWith]
    simp only [cdelt, hdx,
      show ([1, 2, 4] : List ℚ).max? = some 4 from rfl,
      show ([1, 2, 4] : List ℚ).min? = some 1 from rfl]
    norm_num

/-- C8 witness: the uniformity test instantiated on the axis 0,1,2 with
spacings 1,1. -/
theorem C8_witness :
    cdelt ⟨[0, 1, 2], "GHz", "rest", "frequency", none, some "GHz", "radio", none⟩
        (1/100000000)
      = if ((1 : ℚ) - 1) / |(1 : ℚ)| < 1/100000000 then
          some ((dxarr [0, 1, 2]).sum / ((dxarr [0, 1, 2]).length : ℚ))
        else none :=
  C8_channel_spacing.1 ⟨[0, 1, 2], "GHz", "rest", "frequency", none, some "GHz", "radio", none⟩
    (1/100000000) 1 1
    (by rw [show dxarr [0, 1, 2] = [1, 1] from by norm_num [dxarr, List.zipWith]]
        rfl)
    (by rw [show dxarr [0, 1, 2] = [1, 1] from by norm_num [dxarr, List.zipWith]]
        rfl)
    (by norm_num)

/-- The per-member normalization of the collection constructor preserves
each member's sample count and reference frequency, whether the conversion
succeeds, fails (and is swallowed), or is skipped. -/
theorem processMember_meta (u f : String) (a : SpecAxis) :
    (processMember u f a).values.length = a.values.length
      ∧ (processMember u f a).reffreq = a.reffreq := by
  unfold processMember
  by_cases hcond : (a.units != u || a.frame != f) = true
  · rw [if_pos hcond]
    rcases hc : convert_to_unit a u f false none none with e | r
    · simp [hc]
    · have m := convert_to_unit_meta _ _ _ _ _ _ _ hc
      simp [hc, m.2.1, m.2.2.1]
  · rw [if_neg hcond]
    exact ⟨rfl, rfl⟩

/-- C9: concatenating axes yields one axis whose length is the sum of the
member lengths, and whose reference frequency is the common value exactly
when every member agrees with the first, and nothing otherwise. -/
theorem C9_concatenation (ax0 : SpecAxis) (rest : List SpecAxis) (r : AxesResult)
    (h : SpectroscopicAxes_new (ax0 :: rest) = Except.ok r) :
    r.axis.values.length = ((ax0 :: rest).map (fun a => a.values.length)).sum
    ∧ r.axis.reffreq
      = (if (ax0 :: rest).all (fun a => ax0.reffreq == a.reffreq) then ax0.reffreq
         else none) := by
  unfold SpectroscopicAxes_new at h
  simp only [Except.ok.injEq] at h
  subst h
  constructor
  · show ((List.map (processMember ax0.units ax0.frame) (ax0 :: rest)).map
        SpecAxis.values).flatten.length = _
    rw [List.length_flatten, List.map_map, List.map_map]
    congr 1
    apply List.map_congr_left
    intro a _
    exact (processMember_meta ax0.units ax0.frame a).1
  · show (if (List.map (processMember ax0.units ax0.frame) (ax0 :: rest)).all
        (fun a => (processMember ax0.units ax0.frame ax0).reffreq == a.reffreq)
        then (processMember ax0.units ax0.frame ax0).reffreq else none) = _
    rw [List.all_map, (processMember_meta ax0.units ax0.frame ax0).2]
    rw [show ((fun a => ax0.reffreq == a.reffreq) ∘ processMember ax0.units ax0.frame)
        = (fun a => ax0.reffreq == a.reffreq) from
      funext fun a => by
        simp only [Function.comp]
        rw [(processMember_meta ax0.units ax0.frame a).2]]

/-- C9 witness: two GHz axes of lengths 2 and 1 with the same reference
frequency concatenate to a length-3 axis keeping that reference frequency. -/
theorem C9_witness :
    (AxesResult.axis
        ⟨⟨[1, 2, 3], "GHz", "rest", "frequency", some 5, some "GHz", "radio", none⟩,
          []⟩).values.length
      = (([SpectroscopicAxis_new [1, 2] "GHz" "rest" none (some 5) none none,
           SpectroscopicAxis_new [3] "GHz" "rest" none (some 5) none none]).map
          (fun a => a.values.length)).sum
    ∧ (AxesResult.axis
        ⟨⟨[1, 2, 3], "GHz", "rest", "frequency", some 5, some "GHz", "radio", none⟩,
          []⟩).reffreq
      = (if ([SpectroscopicAxis_new [1, 2] "GHz" "rest" none (some 5) none none,
              SpectroscopicAxis_new [3] "GHz" "rest" none (some 5) none none]).all
            (fun a => (SpectroscopicAxis_new [1, 2] "GHz" "rest" none (some 5) none
              none).reffreq == a.reffreq)
          then (SpectroscopicAxis_new [1, 2] "GHz" "rest" none (some 5) none none).reffreq
          else none) :=
  C9_concatenation (SpectroscopicAxis_new [1, 2] "GHz" "rest" none (some 5) none none)
    [SpectroscopicAxis_new [3] "GHz" "rest" none (some 5) none none]
    ⟨⟨[1, 2, 3], "GHz", "rest", "frequency", some 5, some "GHz", "radio", none⟩, []⟩
    rfl

/-- C4 counterexample: an axis constructed with an unknown unit cannot be
converted (its xtype is unknown, so convert_to_unit raises), yet
concatenating it after a GHz axis succeeds, carries its values through
unconverted, and reports no error at all: the claimed batch report is
empty even though a member conversion failed. -/
theorem C4_counterexample :
    convert_to_unit (SpectroscopicAxis_new [3] "furlong" "rest" none (some 5) none none)
      "GHz" "rest" false none none
      = Except.error "KeyError: xtype not in conversion_dict"
    ∧ SpectroscopicAxes_new
        [SpectroscopicAxis_new [1, 2] "GHz" "rest" none (some 5) none none,
         SpectroscopicAxis_new [3] "furlong" "rest" none (some 5) none none]
      = Except.ok ⟨⟨[1, 2, 3], "GHz", "rest", "frequency", some 5, some "GHz", "radio",
          none⟩, []⟩ :=
  ⟨rfl, rfl⟩

/-- C4 (amended): a failed per-member conversion is silently swallowed (the
source constructs an error object and discards it without raising or
recording), so the constructor never reports any error, and a nonempty
concatenation always succeeds with the failing axis left unconverted. -/
theorem C4_lenient_no_reporting :
    (∀ (axs : List SpecAxis) (r : AxesResult),
      SpectroscopicAxes_new axs = Except.ok r → r.reportedErrors = [])
    ∧ (∀ axs : List SpecAxis, axs ≠ [] →
      ∃ r, SpectroscopicAxes_new axs = Except.ok r) := by
  constructor
  · intro axs r h
    cases axs with
    | nil => simp [SpectroscopicAxes_new] at h
    | cons a t =>
      unfold SpectroscopicAxes_new at h
      simp only [Except.ok.injEq] at h
      subst h
      rfl
  · intro axs hne
    cases axs with
    | nil => exact absurd rfl hne
    | cons a t => exact ⟨_, rfl⟩

/-- C4 witness: a singleton concatenation reports no errors. -/
theorem C4_witness :
    AxesResult.reportedErrors
      ⟨⟨[1, 2], "GHz", "rest", "frequency", some 5, some "GHz", "radio", none⟩, []⟩
      = [] :=
  C4_lenient_no_reporting.1
    [SpectroscopicAxis_new [1, 2] "GHz" "rest" none (some 5) none none]
    ⟨⟨[1, 2], "GHz", "rest", "frequency", some 5, some "GHz", "radio", none⟩, []⟩
    rfl

end Units
